import Mathlib

/-!
Verification of the Google Drive manager utility.

The embedding models `src/main.py`'s `GoogleDriveManager` as pure functions
parameterized by a `DriveService` (the remote API surface: each field is one
remote endpoint, returning `Except` to model a raised exception).  Every
operation returns its Python return value together with the ordered list of
remote calls it attempted, and operations touching the local disk also thread
an explicit local file system.  The report helpers called from
`src/frontend.py` live in a `utils_drive` module that is not part of the
sources, so they are modelled from the spec.
-/

/-- A file or folder record in the remote store (the metadata subset the
program consumes: id, name, mimeType, size, createdTime, parents, trashed). -/
structure DriveFile where
  id : String
  name : String
  mimeType : String
  size : Option Nat
  createdTime : Option String
  parents : List String
  trashed : Bool
deriving DecidableEq

/-- The three query shapes `main.py` sends to the remote list endpoint:
`'{folder_id}' in parents and trashed=false`, `trashed=false`, and
`name='{nom}' and mimeType='application/vnd.google-apps.folder' and
trashed=false`. -/
inductive DriveQuery where
  | inParentsNotTrashed (folderId : String)
  | notTrashed
  | folderByName (nom : String)
deriving DecidableEq

/-- One attempted remote call (one `.execute()` in the Python source; the
chunked media download is modelled as a single media transfer). -/
inductive RemoteCall where
  | listCall (q : DriveQuery)
  | getCall (fileId : String)
  | exportCall (fileId : String) (mimeType : String)
  | getMediaCall (fileId : String)
  | createCall (nom : String) (parents : List String) (mimeType : Option String)
      (hasMedia : Bool)
deriving DecidableEq

/-- The remote API surface used by the program.  `Except.error` models the
endpoint raising an exception. -/
structure DriveService where
  listFiles : DriveQuery → Except String (List DriveFile)
  getFile : String → Except String DriveFile
  exportMedia : String → String → Except String (List Nat)
  getMedia : String → Except String (List Nat)
  createFile : String → List String → Option String → Bool → Except String String

/-- The local disk: an association list from path to byte content (later
entries shadowed by earlier ones). -/
abbrev LocalFS := List (String × List Nat)

/-- Python `os.path.exists`. -/
def fsExists (fs : LocalFS) (chemin : String) : Bool :=
  fs.any (fun e => e.1 == chemin)

/-- Python `open(path, 'wb'); f.write(content)`. -/
def fsWrite (fs : LocalFS) (chemin : String) (contenu : List Nat) : LocalFS :=
  (chemin, contenu) :: fs

/-- Python truthiness of an optional string (`None` and `""` are falsy). -/
def optStrTruthy : Option String → Bool
  | none => false
  | some s => !s.isEmpty

/-- Python `str.lower()` (ASCII-level model, which covers every extension the
program manipulates). -/
def pyLower (s : String) : String :=
  String.mk (s.data.map Char.toLower)

/-- Python `str.endswith(suffix)`. -/
def pyEndsWith (s suffixe : String) : Bool :=
  decide (suffixe.data <:+ s.data)

/-- Python `os.path.basename` (POSIX model). -/
def pyBasename (chemin : String) : String :=
  (chemin.splitOn "/").getLastD ""

/-- `trouver_dossier_par_nom` (`main.py` lines 106-121): issue the
folder-by-name query; return the first match's id, `None` when there is no
match, and `None` when the remote call raises. -/
def trouver_dossier_par_nom (service : DriveService) (nom_dossier : String) :
    Option String × List RemoteCall :=
  let query := DriveQuery.folderByName nom_dossier
  match service.listFiles query with
  | Except.error _ => (none, [RemoteCall.listCall query])
  | Except.ok items =>
    match items with
    | [] => (none, [RemoteCall.listCall query])
    | f :: _ => (some f.id, [RemoteCall.listCall query])

/-- The query construction and list call of `lister_fichiers` (`main.py`
lines 68-104): with a truthy folder id the query restricts to that parent and
`trashed=false`, otherwise only `trashed=false`; an exception yields `[]`. -/
def lister_fichiers_core (service : DriveService) (dossier_id : Option String) :
    List DriveFile × List RemoteCall :=
  let query := if optStrTruthy dossier_id
    then DriveQuery.inParentsNotTrashed (dossier_id.getD "")
    else DriveQuery.notTrashed
  match service.listFiles query with
  | Except.error _ => ([], [RemoteCall.listCall query])
  | Except.ok items => (items, [RemoteCall.listCall query])

/-- `lister_fichiers` (`main.py` lines 48-104): when a folder name is given
and no folder id, resolve the name first and return `[]` when the resolution
yields nothing truthy. -/
def lister_fichiers (service : DriveService) (dossier_id nom_dossier : Option String) :
    List DriveFile × List RemoteCall :=
  if optStrTruthy nom_dossier && !optStrTruthy dossier_id then
    match trouver_dossier_par_nom service (nom_dossier.getD "") with
    | (none, journal) => ([], journal)
    | (some fid, journal) =>
      if fid.isEmpty then ([], journal)
      else
        let res := lister_fichiers_core service (some fid)
        (res.1, journal ++ res.2)
  else
    lister_fichiers_core service dossier_id

/-- The `google_docs_types` mapping of `telecharger_fichier` (`main.py`
lines 147-152): Google editable-document kind to default export MIME type. -/
def google_docs_types (mime_type : String) : Option String :=
  if mime_type = "application/vnd.google-apps.document" then
    some "application/vnd.openxmlformats-officedocument.wordprocessingml.document"
  else if mime_type = "application/vnd.google-apps.spreadsheet" then
    some "application/vnd.openxmlformats-officedocument.spreadsheetml.sheet"
  else if mime_type = "application/vnd.google-apps.presentation" then
    some "application/vnd.openxmlformats-officedocument.presentationml.presentation"
  else if mime_type = "application/vnd.google-apps.drawing" then
    some "image/png"
  else none

/-- The `extensions` mapping of `telecharger_fichier` (`main.py`
lines 155-163): export MIME type to file extension. -/
def extensions (export_mime_type : String) : Option String :=
  if export_mime_type = "application/vnd.openxmlformats-officedocument.wordprocessingml.document" then
    some ".docx"
  else if export_mime_type = "application/vnd.openxmlformats-officedocument.spreadsheetml.sheet" then
    some ".xlsx"
  else if export_mime_type = "application/vnd.openxmlformats-officedocument.presentationml.presentation" then
    some ".pptx"
  else if export_mime_type = "image/png" then
    some ".png"
  else if export_mime_type = "application/pdf" then
    some ".pdf"
  else if export_mime_type = "text/plain" then
    some ".txt"
  else if export_mime_type = "text/csv" then
    some ".csv"
  else none

/-- The extension-appending step of `telecharger_fichier` (`main.py`
lines 171-175): when the export MIME type has a known extension and the name
does not already end with it case-insensitively, append it. -/
def appliquer_extension (export_mime_type nom : String) : String :=
  match extensions export_mime_type with
  | some ext => if !pyEndsWith (pyLower nom) (pyLower ext) then nom ++ ext else nom
  | none => nom

/-- The local-name resolution of `telecharger_fichier` (`main.py`
lines 140-141): a falsy caller-supplied name is replaced by the remote
record's name. -/
def nom_local_effectif (nom_fichier_local : Option String) (nom_distant : String) : String :=
  if optStrTruthy nom_fichier_local then nom_fichier_local.getD "" else nom_distant

/-- `telecharger_fichier` (`main.py` lines 123-215): fetch the metadata,
branch on editable-document versus binary, fully acquire the content
remotely, and only then write the local file.  Any raised exception yields
`False` with the disk untouched. -/
def telecharger_fichier (service : DriveService) (fs : LocalFS) (fichier_id : String)
    (nom_fichier_local format_export : Option String) :
    Bool × LocalFS × List RemoteCall :=
  match service.getFile fichier_id with
  | Except.error _ => (false, fs, [RemoteCall.getCall fichier_id])
  | Except.ok file_metadata =>
    let nom0 := nom_local_effectif nom_fichier_local file_metadata.name
    match google_docs_types file_metadata.mimeType with
    | some defaut =>
      let export_mime_type :=
        if optStrTruthy format_export then format_export.getD "" else defaut
      let nom1 := appliquer_extension export_mime_type nom0
      match service.exportMedia fichier_id export_mime_type with
      | Except.error _ =>
        (false, fs,
         [RemoteCall.getCall fichier_id, RemoteCall.exportCall fichier_id export_mime_type])
      | Except.ok contenu =>
        (true, fsWrite fs nom1 contenu,
         [RemoteCall.getCall fichier_id, RemoteCall.exportCall fichier_id export_mime_type])
    | none =>
      match service.getMedia fichier_id with
      | Except.error _ =>
        (false, fs, [RemoteCall.getCall fichier_id, RemoteCall.getMediaCall fichier_id])
      | Except.ok contenu =>
        (true, fsWrite fs nom0 contenu,
         [RemoteCall.getCall fichier_id, RemoteCall.getMediaCall fichier_id])

/-- The metadata construction and create call of `uploader_fichier`
(`main.py` lines 241-266): basename as remote name, parent folder when
truthy, media body attached. -/
def uploader_creer (service : DriveService) (chemin_fichier_local : String)
    (dossier_id : Option String) : Option String × List RemoteCall :=
  let nom_fichier := pyBasename chemin_fichier_local
  let parents := if optStrTruthy dossier_id then [dossier_id.getD ""] else []
  let appel := RemoteCall.createCall nom_fichier parents none true
  match service.createFile nom_fichier parents none true with
  | Except.error _ => (none, [appel])
  | Except.ok fid => (some fid, [appel])

/-- `uploader_fichier` (`main.py` lines 217-266): the local existence check
comes first and short-circuits with `None` and no remote call; then the
optional folder-name resolution, then the create call. -/
def uploader_fichier (service : DriveService) (fs : LocalFS) (chemin_fichier_local : String)
    (dossier_id nom_dossier : Option String) : Option String × List RemoteCall :=
  if !fsExists fs chemin_fichier_local then (none, [])
  else if optStrTruthy nom_dossier && !optStrTruthy dossier_id then
    match trouver_dossier_par_nom service (nom_dossier.getD "") with
    | (none, journal) => (none, journal)
    | (some fid, journal) =>
      if fid.isEmpty then (none, journal)
      else
        let res := uploader_creer service chemin_fichier_local (some fid)
        (res.1, journal ++ res.2)
  else
    uploader_creer service chemin_fichier_local dossier_id

/-- The `formats_disponibles` table of `obtenir_formats_export` (`main.py`
lines 283-310), in source insertion order. -/
def formats_disponibles (mime_type : String) : Option (List (String × String)) :=
  if mime_type = "application/vnd.google-apps.document" then
    some [("application/vnd.openxmlformats-officedocument.wordprocessingml.document", ".docx (Word)"),
          ("application/pdf", ".pdf"),
          ("text/plain", ".txt"),
          ("application/rtf", ".rtf"),
          ("application/vnd.oasis.opendocument.text", ".odt")]
  else if mime_type = "application/vnd.google-apps.spreadsheet" then
    some [("application/vnd.openxmlformats-officedocument.spreadsheetml.sheet", ".xlsx (Excel)"),
          ("application/pdf", ".pdf"),
          ("text/csv", ".csv"),
          ("application/vnd.oasis.opendocument.spreadsheet", ".ods")]
  else if mime_type = "application/vnd.google-apps.presentation" then
    some [("application/vnd.openxmlformats-officedocument.presentationml.presentation", ".pptx (PowerPoint)"),
          ("application/pdf", ".pdf"),
          ("image/jpeg", ".jpg"),
          ("image/png", ".png"),
          ("application/vnd.oasis.opendocument.presentation", ".odp")]
  else if mime_type = "application/vnd.google-apps.drawing" then
    some [("image/png", ".png"),
          ("image/jpeg", ".jpg"),
          ("image/svg+xml", ".svg"),
          ("application/pdf", ".pdf")]
  else none

/-- `obtenir_formats_export` (`main.py` lines 268-323): look the record's
MIME type up in the fixed table; an unknown type or a raised exception
yields the empty mapping. -/
def obtenir_formats_export (service : DriveService) (fichier_id : String) :
    List (String × String) × List RemoteCall :=
  match service.getFile fichier_id with
  | Except.error _ => ([], [RemoteCall.getCall fichier_id])
  | Except.ok file_metadata =>
    match formats_disponibles file_metadata.mimeType with
    | some fmts => (fmts, [RemoteCall.getCall fichier_id])
    | none => ([], [RemoteCall.getCall fichier_id])

/-- `creer_dossier` (`main.py` lines 325-355): create a record with the
folder MIME type, optionally parented; a raised exception yields `None`. -/
def creer_dossier (service : DriveService) (nom_dossier : String)
    (dossier_parent_id : Option String) : Option String × List RemoteCall :=
  let parents := if optStrTruthy dossier_parent_id then [dossier_parent_id.getD ""] else []
  let mime := some "application/vnd.google-apps.folder"
  let appel := RemoteCall.createCall nom_dossier parents mime false
  match service.createFile nom_dossier parents mime false with
  | Except.error _ => (none, [appel])
  | Except.ok fid => (some fid, [appel])

/-- Evaluation of the query vocabulary the program emits, as the remote
store documents it: parent containment and the trashed flag, or exact
case-sensitive name plus folder MIME type plus the trashed flag. -/
def matchesQuery (query : DriveQuery) (f : DriveFile) : Bool :=
  match query with
  | DriveQuery.inParentsNotTrashed fid => f.parents.contains fid && !f.trashed
  | DriveQuery.notTrashed => !f.trashed
  | DriveQuery.folderByName nom =>
    f.name == nom && f.mimeType == "application/vnd.google-apps.folder" && !f.trashed

/-- A remote service whose list endpoint faithfully filters a fixed record
set by the query; the other endpoints are unused and raise. -/
def filesListService (files : List DriveFile) : DriveService :=
  { listFiles := fun q => Except.ok (files.filter (matchesQuery q))
    getFile := fun _ => Except.error "non disponible"
    exportMedia := fun _ _ => Except.error "non disponible"
    getMedia := fun _ => Except.error "non disponible"
    createFile := fun _ _ _ _ => Except.error "non disponible" }

/-- A remote service on which every endpoint raises with message `e`. -/
def errService (e : String) : DriveService :=
  { listFiles := fun _ => Except.error e
    getFile := fun _ => Except.error e
    exportMedia := fun _ _ => Except.error e
    getMedia := fun _ => Except.error e
    createFile := fun _ _ _ _ => Except.error e }

/-- A remote service whose metadata endpoint answers with a fixed record but
whose transfer endpoints raise: it fails after the metadata fetch, at the
export or media call site. -/
def mixedFailService (meta : DriveFile) (e : String) : DriveService :=
  { listFiles := fun _ => Except.error e
    getFile := fun _ => Except.ok meta
    exportMedia := fun _ _ => Except.error e
    getMedia := fun _ => Except.error e
    createFile := fun _ _ _ _ => Except.error e }

/-- An arbitrary serializable in-memory value: numbers, strings, nested
mappings (the shapes the spec's round-trip property quantifies over). -/
inductive Value where
  | num (n : Int)
  | str (s : String)
  | map (entries : List (String × Value))

/-- The process-wide serialization format (the pickle library, external to
the sources): a byte encoder and decoder pair. -/
structure Codec where
  dumps : Value → List Nat
  loads : List Nat → Option Value

/-- The remote store as mutable state for the report round-trip: records,
blob contents by id, and a fresh-id counter. -/
structure Store where
  files : List DriveFile
  blobs : List (String × List Nat)
  nextId : Nat

/-- Modelled from the spec: the remote create-record call as the store
documents it — a fresh identifier is assigned, the record and its blob are
added, and the identifier is returned. -/
def Store.upload (st : Store) (nom : String) (blob : List Nat) (parent : Option String) :
    String × Store :=
  let fid := "file-" ++ toString st.nextId
  (fid,
   { files := { id := fid, name := nom, mimeType := "application/octet-stream",
                size := some blob.length, createdTime := none,
                parents := parent.toList, trashed := false } :: st.files
     blobs := (fid, blob) :: st.blobs
     nextId := st.nextId + 1 })

/-- Modelled from the spec: the remote download-media call — the blob stored
under the identifier, when present. -/
def Store.download (st : Store) (fichier_id : String) : Option (List Nat) :=
  (st.blobs.find? (fun e => e.1 == fichier_id)).map Prod.snd

/-- Modelled from the spec: `uploader_report` from the missing `utils_drive`
module — serializes the value with the process-wide format, writes it to a
temporary local location, delegates to upload, and removes the temporary
artifact; returns the new record's identifier and the updated store. -/
def uploader_report (codec : Codec) (st : Store) (objet_a_pickler : Value)
    (nom_fichier dossier_id : String) : String × Store :=
  Store.upload st nom_fichier (codec.dumps objet_a_pickler) (some dossier_id)

/-- Modelled from the spec: `load_report` from the missing `utils_drive`
module — delegates to download into a temporary local location, deserializes
the blob with the same format, removes the temporary artifact, and returns
the value; `none` when the blob is absent or not well-formed. -/
def load_report (codec : Codec) (st : Store) (fichier_id : String) : Option Value :=
  (Store.download st fichier_id).bind codec.loads

/-- A concrete codec correct on numbers and strings, used to instantiate the
round-trip theorem. -/
def natCodec : Codec :=
  { dumps := fun v => match v with
      | Value.num n => [0, n.toNat, (-n).toNat]
      | Value.str s => 1 :: s.data.map Char.toNat
      | Value.map _ => [2]
    loads := fun bs => match bs with
      | [0, a, b] => some (Value.num ((a : Int) - (b : Int)))
      | 1 :: cs => some (Value.str (String.mk (cs.map Char.ofNat)))
      | _ => none }

/-- A sample editable-document record. -/
def sampleDoc : DriveFile :=
  { id := "doc1", name := "rapport", mimeType := "application/vnd.google-apps.document",
    size := none, createdTime := none, parents := [], trashed := false }

/-- A sample remote service holding the one editable document `sampleDoc`. -/
def sampleDocService : DriveService :=
  { listFiles := fun _ => Except.error "hors ligne"
    getFile := fun fid => if fid = "doc1" then Except.ok sampleDoc else Except.error "introuvable"
    exportMedia := fun fid _ => if fid = "doc1" then Except.ok [1, 2, 3] else Except.error "introuvable"
    getMedia := fun _ => Except.error "introuvable"
    createFile := fun _ _ _ _ => Except.error "hors ligne" }

/-- A sample child file parented under the folder id `F1`. -/
def sampleChild : DriveFile :=
  { id := "A1", name := "rapport.txt", mimeType := "text/plain",
    size := some 12, createdTime := some "2024-01-01", parents := ["F1"], trashed := false }

/-- Two sample non-trashed folders sharing the name `Projets`. -/
def sampleFolderA : DriveFile :=
  { id := "DA", name := "Projets", mimeType := "application/vnd.google-apps.folder",
    size := none, createdTime := none, parents := [], trashed := false }

/-- Second sample folder with the same name as `sampleFolderA`. -/
def sampleFolderB : DriveFile :=
  { id := "DB", name := "Projets", mimeType := "application/vnd.google-apps.folder",
    size := none, createdTime := none, parents := [], trashed := false }

/-- C1: for every serializable value `v`, name, and folder identifier,
`load_report` on the file identifier produced by
`uploader_report(v, name, folder_id)` returns a value equal to `v` —
the serialize-upload / download-deserialize pair is a round-trip. -/
theorem load_report_roundtrip (codec : Codec) (st : Store) (v : Value)
    (nom dossier_id : String)
    (hround : codec.loads (codec.dumps v) = some v) :
    load_report codec (uploader_report codec st v nom dossier_id).2
      (uploader_report codec st v nom dossier_id).1 = some v := by
  simp [load_report, uploader_report, Store.upload, Store.download, List.find?, hround]

/-- Witness for C1 at a concrete value, codec, and store. -/
theorem load_report_roundtrip_witness :
    natCodec.loads (natCodec.dumps (Value.num 7)) = some (Value.num 7) ∧
    load_report natCodec
      (uploader_report natCodec ⟨[], [], 0⟩ (Value.num 7) "sauvegarde" "F1").2
      (uploader_report natCodec ⟨[], [], 0⟩ (Value.num 7) "sauvegarde" "F1").1 =
      some (Value.num 7) :=
  ⟨rfl, load_report_roundtrip natCodec ⟨[], [], 0⟩ (Value.num 7) "sauvegarde" "F1" rfl⟩

/-- C3: for every local path that does not exist on disk, `uploader_fichier`
returns `None` and attempts zero remote calls — the existence check precedes
any remote interaction. -/
theorem uploader_fichier_local_absent (service : DriveService) (fs : LocalFS)
    (chemin : String) (dossier_id nom_dossier : Option String)
    (h : fsExists fs chemin = false) :
    uploader_fichier service fs chemin dossier_id nom_dossier = (none, []) := by
  simp [uploader_fichier, h]

/-- Witness for C3: an empty disk and an all-failing service. -/
theorem uploader_fichier_local_absent_witness :
    fsExists [] "rapport.txt" = false ∧
    uploader_fichier (errService "panne") [] "rapport.txt" none none = (none, []) :=
  ⟨rfl, uploader_fichier_local_absent (errService "panne") [] "rapport.txt" none none rfl⟩

/-- C5: for every folder name that cannot be resolved to an identifier,
`lister_fichiers` with that name returns the empty list rather than an
error. -/
theorem lister_fichiers_nom_introuvable (service : DriveService) (nom : String)
    (hnom : nom.isEmpty = false)
    (hres : (trouver_dossier_par_nom service nom).1 = none) :
    (lister_fichiers service none (some nom)).1 = [] := by
  unfold lister_fichiers
  simp only [optStrTruthy, hnom, Bool.not_false, Bool.and_true, Option.getD_some]
  rcases htr : trouver_dossier_par_nom service nom with ⟨o, journal⟩
  rw [htr] at hres
  cases o with
  | none => simp
  | some fid => simp at hres

/-- Witness for C5: a name no service record resolves. -/
theorem lister_fichiers_nom_introuvable_witness :
    "Mon Dossier".isEmpty = false ∧
    (trouver_dossier_par_nom (errService "panne") "Mon Dossier").1 = none ∧
    (lister_fichiers (errService "panne") none (some "Mon Dossier")).1 = [] :=
  ⟨rfl, rfl,
    lister_fichiers_nom_introuvable (errService "panne") "Mon Dossier" rfl rfl⟩

/-- C6: when the remote folder-by-name query succeeds, `trouver_dossier_par_nom`
returns `None` on zero matches and otherwise the identifier of the first
match in the order the remote service returned, with no further tie-break. -/
theorem trouver_dossier_premier_resultat (service : DriveService) (nom : String)
    (items : List DriveFile)
    (h : service.listFiles (DriveQuery.folderByName nom) = Except.ok items) :
    (trouver_dossier_par_nom service nom).1 = items.head?.map DriveFile.id := by
  cases items with
  | nil => simp [trouver_dossier_par_nom, h]
  | cons f rest => simp [trouver_dossier_par_nom, h]

/-- Witness for C6: two folders share the name; the first one's id is
returned. -/
theorem trouver_dossier_premier_resultat_witness :
    (filesListService [sampleFolderA, sampleFolderB]).listFiles
      (DriveQuery.folderByName "Projets") = Except.ok [sampleFolderA, sampleFolderB] ∧
    (trouver_dossier_par_nom (filesListService [sampleFolderA, sampleFolderB]) "Projets").1 =
      [sampleFolderA, sampleFolderB].head?.map DriveFile.id :=
  ⟨rfl,
   trouver_dossier_premier_resultat (filesListService [sampleFolderA, sampleFolderB])
     "Projets" [sampleFolderA, sampleFolderB] rfl⟩

/-- C2: for every valid (truthy) folder identifier `fid`, every record
returned by `lister_fichiers` with that folder id has `fid` among its
parents and its trashed flag false. -/
theorem lister_fichiers_filtre_parent (files : List DriveFile) (fid : String)
    (hfid : fid.isEmpty = false) (f : DriveFile)
    (hf : f ∈ (lister_fichiers (filesListService files) (some fid) none).1) :
    f.parents.contains fid = true ∧ f.trashed = false := by
  simp only [lister_fichiers, lister_fichiers_core, filesListService, optStrTruthy,
    hfid, Bool.not_false, Bool.false_and, Bool.and_false, Bool.false_eq_true,
    if_false, if_true, Option.getD_some] at hf
  rw [List.mem_filter] at hf
  have hm := hf.2
  simp only [matchesQuery, Bool.and_eq_true, Bool.not_eq_true'] at hm
  exact hm

/-- Witness for C2 at a concrete store and folder id. -/
theorem lister_fichiers_filtre_parent_witness :
    "F1".isEmpty = false ∧
    sampleChild ∈ (lister_fichiers (filesListService [sampleChild]) (some "F1") none).1 ∧
    sampleChild.parents.contains "F1" = true ∧ sampleChild.trashed = false :=
  ⟨rfl, by decide,
   lister_fichiers_filtre_parent [sampleChild] "F1" rfl sampleChild (by decide)⟩

/-- C7: whenever `telecharger_fichier` reports failure — in particular when
the metadata fetch, the export, or the media download raises before any
bytes arrive — the local disk is unchanged: no local file, not even a
zero-byte one, is created. -/
theorem telecharger_fichier_echec_disque_intact (service : DriveService) (fs : LocalFS)
    (fichier_id : String) (nom_fichier_local format_export : Option String)
    (h : (telecharger_fichier service fs fichier_id nom_fichier_local format_export).1 = false) :
    (telecharger_fichier service fs fichier_id nom_fichier_local format_export).2.1 = fs := by
  cases hg : service.getFile fichier_id with
  | error e => simp [telecharger_fichier, hg]
  | ok meta =>
    cases hd : google_docs_types meta.mimeType with
    | some defaut =>
      cases he : service.exportMedia fichier_id
          (if optStrTruthy format_export then format_export.getD "" else defaut) with
      | error e => simp [telecharger_fichier, hg, hd, he]
      | ok contenu =>
        exfalso
        simp [telecharger_fichier, hg, hd, he] at h
    | none =>
      cases hm : service.getMedia fichier_id with
      | error e => simp [telecharger_fichier, hg, hd, hm]
      | ok contenu =>
        exfalso
        simp [telecharger_fichier, hg, hd, hm] at h

/-- Witness for C7: a download on an all-failing service reports failure and
leaves the disk as it was. -/
theorem telecharger_fichier_echec_disque_intact_witness :
    (telecharger_fichier (errService "panne") [] "X1" none none).1 = false ∧
    (telecharger_fichier (errService "panne") [] "X1" none none).2.1 = [] :=
  ⟨rfl, telecharger_fichier_echec_disque_intact (errService "panne") [] "X1" none none rfl⟩

/-- C9: `obtenir_formats_export` returns the empty mapping for a native
binary (non-editable) record, and for each editable-document kind returns
that kind's fixed mapping of export MIME types to labels. -/
theorem obtenir_formats_export_par_type (service : DriveService) (fichier_id : String)
    (meta : DriveFile) (hget : service.getFile fichier_id = Except.ok meta) :
    ((meta.mimeType ≠ "application/vnd.google-apps.document" ∧
      meta.mimeType ≠ "application/vnd.google-apps.spreadsheet" ∧
      meta.mimeType ≠ "application/vnd.google-apps.presentation" ∧
      meta.mimeType ≠ "application/vnd.google-apps.drawing") →
      (obtenir_formats_export service fichier_id).1 = []) ∧
    (meta.mimeType = "application/vnd.google-apps.document" →
      (obtenir_formats_export service fichier_id).1 =
        [("application/vnd.openxmlformats-officedocument.wordprocessingml.document", ".docx (Word)"),
         ("application/pdf", ".pdf"),
         ("text/plain", ".txt"),
         ("application/rtf", ".rtf"),
         ("application/vnd.oasis.opendocument.text", ".odt")]) ∧
    (meta.mimeType = "application/vnd.google-apps.spreadsheet" →
      (obtenir_formats_export service fichier_id).1 =
        [("application/vnd.openxmlformats-officedocument.spreadsheetml.sheet", ".xlsx (Excel)"),
         ("application/pdf", ".pdf"),
         ("text/csv", ".csv"),
         ("application/vnd.oasis.opendocument.spreadsheet", ".ods")]) ∧
    (meta.mimeType = "application/vnd.google-apps.presentation" →
      (obtenir_formats_export service fichier_id).1 =
        [("application/vnd.openxmlformats-officedocument.presentationml.presentation", ".pptx (PowerPoint)"),
         ("application/pdf", ".pdf"),
         ("image/jpeg", ".jpg"),
         ("image/png", ".png"),
         ("application/vnd.oasis.opendocument.presentation", ".odp")]) ∧
    (meta.mimeType = "application/vnd.google-apps.drawing" →
      (obtenir_formats_export service fichier_id).1 =
        [("image/png", ".png"),
         ("image/jpeg", ".jpg"),
         ("image/svg+xml", ".svg"),
         ("application/pdf", ".pdf")]) := by
  refine ⟨?_, ?_, ?_, ?_, ?_⟩
  · rintro ⟨h1, h2, h3, h4⟩
    simp [obtenir_formats_export, hget, formats_disponibles, h1, h2, h3, h4]
  · intro hm
    simp [obtenir_formats_export, hget, formats_disponibles, hm]
  · intro hm
    simp [obtenir_formats_export, hget, formats_disponibles, hm]
  · intro hm
    simp [obtenir_formats_export, hget, formats_disponibles, hm]
  · intro hm
    simp [obtenir_formats_export, hget, formats_disponibles, hm]

/-- Witness for C9 at the sample editable document. -/
theorem obtenir_formats_export_par_type_witness :
    sampleDocService.getFile "doc1" = Except.ok sampleDoc ∧
    sampleDoc.mimeType = "application/vnd.google-apps.document" ∧
    (obtenir_formats_export sampleDocService "doc1").1 =
      [("application/vnd.openxmlformats-officedocument.wordprocessingml.document", ".docx (Word)"),
       ("application/pdf", ".pdf"),
       ("text/plain", ".txt"),
       ("application/rtf", ".rtf"),
       ("application/vnd.oasis.opendocument.text", ".odt")] :=
  ⟨rfl, rfl,
   (obtenir_formats_export_par_type sampleDocService "doc1" sampleDoc rfl).2.1 rfl⟩

/-- C10: any identifier returned by `trouver_dossier_par_nom` against a
faithful remote store belongs to a record that bears the exact name, has the
folder MIME type, and is not trashed — a trashed folder or a non-folder
record with that name is never returned. -/
theorem trouver_dossier_nature_resultat (files : List DriveFile) (nom fid : String)
    (h : (trouver_dossier_par_nom (filesListService files) nom).1 = some fid) :
    ∃ f, f ∈ files ∧ f.id = fid ∧ f.name = nom ∧
      f.mimeType = "application/vnd.google-apps.folder" ∧ f.trashed = false := by
  cases hfl : files.filter (matchesQuery (DriveQuery.folderByName nom)) with
  | nil => simp [trouver_dossier_par_nom, filesListService, hfl] at h
  | cons f rest =>
    have hmem : f ∈ files.filter (matchesQuery (DriveQuery.folderByName nom)) := by
      rw [hfl]; exact List.mem_cons_self f rest
    have hid : f.id = fid := by
      simp [trouver_dossier_par_nom, filesListService, hfl] at h
      exact h
    have hmatch := (List.mem_filter.mp hmem).2
    simp only [matchesQuery, Bool.and_eq_true, beq_iff_eq, Bool.not_eq_true'] at hmatch
    exact ⟨f, (List.mem_filter.mp hmem).1, hid, hmatch.1.1, hmatch.1.2, hmatch.2⟩

/-- Witness for C10: the sample folder store. -/
theorem trouver_dossier_nature_resultat_witness :
    (trouver_dossier_par_nom (filesListService [sampleChild, sampleFolderA]) "Projets").1 =
      some "DA" ∧
    ∃ f, f ∈ [sampleChild, sampleFolderA] ∧ f.id = "DA" ∧ f.name = "Projets" ∧
      f.mimeType = "application/vnd.google-apps.folder" ∧ f.trashed = false :=
  ⟨rfl, trouver_dossier_nature_resultat [sampleChild, sampleFolderA] "Projets" "DA" rfl⟩

/-- Appending the extension makes the lowered name end with the lowered
extension. -/
theorem pyEndsWith_append (nom ext : String) :
    pyEndsWith (pyLower (nom ++ ext)) (pyLower ext) = true := by
  simp only [pyEndsWith, pyLower, String.data_append, List.map_append]
  exact decide_eq_true (List.suffix_append _ _)

/-- Behaviour of the extension-appending step: the result always ends with
the extension case-insensitively, and a name that already ends with it is
left unchanged. -/
theorem appliquer_extension_spec (defMime ext nom : String)
    (hext : extensions defMime = some ext) :
    pyEndsWith (pyLower (appliquer_extension defMime nom)) (pyLower ext) = true ∧
    (pyEndsWith (pyLower nom) (pyLower ext) = true →
      appliquer_extension defMime nom = nom) := by
  unfold appliquer_extension
  rw [hext]
  by_cases hp : pyEndsWith (pyLower nom) (pyLower ext) = true
  · simp [hp]
  · have hp' : pyEndsWith (pyLower nom) (pyLower ext) = false :=
      Bool.eq_false_iff.mpr hp
    simp [hp', pyEndsWith_append]

/-- C4: downloading an editable-document record without an explicit export
type exports with the documented default MIME type for that document kind,
and the local name written — caller-supplied or derived from the record —
ends with the corresponding extension (case-insensitively), with nothing
appended when the name already ends with it. -/
theorem telecharger_extension_defaut (service : DriveService) (fs : LocalFS)
    (fichier_id : String) (nom_fichier_local : Option String) (meta : DriveFile)
    (defaut : String) (contenu : List Nat)
    (hget : service.getFile fichier_id = Except.ok meta)
    (hdoc : google_docs_types meta.mimeType = some defaut)
    (hexp : service.exportMedia fichier_id defaut = Except.ok contenu) :
    ∃ ext, extensions defaut = some ext ∧
      telecharger_fichier service fs fichier_id nom_fichier_local none =
        (true,
         fsWrite fs
           (appliquer_extension defaut (nom_local_effectif nom_fichier_local meta.name))
           contenu,
         [RemoteCall.getCall fichier_id, RemoteCall.exportCall fichier_id defaut]) ∧
      pyEndsWith
        (pyLower (appliquer_extension defaut (nom_local_effectif nom_fichier_local meta.name)))
        (pyLower ext) = true ∧
      (pyEndsWith (pyLower (nom_local_effectif nom_fichier_local meta.name))
          (pyLower ext) = true →
        appliquer_extension defaut (nom_local_effectif nom_fichier_local meta.name) =
          nom_local_effectif nom_fichier_local meta.name) := by
  have hx : ∃ ext, extensions defaut = some ext := by
    unfold google_docs_types at hdoc
    split_ifs at hdoc
    · rw [Option.some_inj] at hdoc; subst hdoc; exact ⟨".docx", rfl⟩
    · rw [Option.some_inj] at hdoc; subst hdoc; exact ⟨".xlsx", rfl⟩
    · rw [Option.some_inj] at hdoc; subst hdoc; exact ⟨".pptx", rfl⟩
    · rw [Option.some_inj] at hdoc; subst hdoc; exact ⟨".png", rfl⟩
  obtain ⟨ext, hext⟩ := hx
  refine ⟨ext, hext, ?_,
    (appliquer_extension_spec defaut ext _ hext).1,
    (appliquer_extension_spec defaut ext _ hext).2⟩
  simp [telecharger_fichier, hget, hdoc, hexp, optStrTruthy]

/-- Witness for C4: the sample document, a caller-supplied name without the
extension. -/
theorem telecharger_extension_defaut_witness :
    sampleDocService.getFile "doc1" = Except.ok sampleDoc ∧
    google_docs_types sampleDoc.mimeType =
      some "application/vnd.openxmlformats-officedocument.wordprocessingml.document" ∧
    sampleDocService.exportMedia "doc1"
        "application/vnd.openxmlformats-officedocument.wordprocessingml.document" =
      Except.ok [1, 2, 3] ∧
    ∃ ext,
      extensions "application/vnd.openxmlformats-officedocument.wordprocessingml.document" =
        some ext ∧
      telecharger_fichier sampleDocService [] "doc1" (some "rapport") none =
        (true,
         fsWrite []
           (appliquer_extension
             "application/vnd.openxmlformats-officedocument.wordprocessingml.document"
             (nom_local_effectif (some "rapport") sampleDoc.name))
           [1, 2, 3],
         [RemoteCall.getCall "doc1",
          RemoteCall.exportCall "doc1"
            "application/vnd.openxmlformats-officedocument.wordprocessingml.document"]) ∧
      pyEndsWith
        (pyLower (appliquer_extension
          "application/vnd.openxmlformats-officedocument.wordprocessingml.document"
          (nom_local_effectif (some "rapport") sampleDoc.name)))
        (pyLower ext) = true ∧
      (pyEndsWith (pyLower (nom_local_effectif (some "rapport") sampleDoc.name))
          (pyLower ext) = true →
        appliquer_extension
          "application/vnd.openxmlformats-officedocument.wordprocessingml.document"
          (nom_local_effectif (some "rapport") sampleDoc.name) =
          nom_local_effectif (some "rapport") sampleDoc.name) :=
  ⟨rfl, rfl, rfl,
   telecharger_extension_defaut sampleDocService [] "doc1" (some "rapport") sampleDoc
     "application/vnd.openxmlformats-officedocument.wordprocessingml.document"
     [1, 2, 3] rfl rfl rfl⟩

/-- C8: a raised remote call is caught at each call site and the operation
returns its failure indicator — empty list for the listings, `None` for the
lookups and creations, `False` for the download, empty mapping for the
export formats — covering every remote call site of the program: the two
list sites, the two metadata sites, the export site, the media site, and the
two create sites. -/
theorem operations_echec_distant (e : String) (fs : LocalFS) (chemin nom fichier_id : String)
    (nom_fichier_local format_export dossier_id : Option String) (meta : DriveFile)
    (hchemin : fsExists fs chemin = true) :
    (lister_fichiers (errService e) dossier_id none).1 = [] ∧
    (trouver_dossier_par_nom (errService e) nom).1 = none ∧
    telecharger_fichier (errService e) fs fichier_id nom_fichier_local format_export =
      (false, fs, [RemoteCall.getCall fichier_id]) ∧
    (telecharger_fichier (mixedFailService meta e) fs fichier_id
        nom_fichier_local format_export).1 = false ∧
    (uploader_fichier (errService e) fs chemin none none).1 = none ∧
    (uploader_fichier (errService e) fs chemin none (some nom)).1 = none ∧
    (obtenir_formats_export (errService e) fichier_id).1 = [] ∧
    (creer_dossier (errService e) nom none).1 = none := by
  refine ⟨?_, ?_, ?_, ?_, ?_, ?_, ?_, ?_⟩
  · simp [lister_fichiers, lister_fichiers_core, errService, optStrTruthy]
  · simp [trouver_dossier_par_nom, errService]
  · simp [telecharger_fichier, errService]
  · cases hd : google_docs_types meta.mimeType <;>
      simp [telecharger_fichier, mixedFailService, hd]
  · simp [uploader_fichier, uploader_creer, errService, optStrTruthy, hchemin]
  · by_cases hn : nom.isEmpty <;>
      simp [uploader_fichier, uploader_creer, trouver_dossier_par_nom, errService,
        optStrTruthy, hchemin, hn]
  · simp [obtenir_formats_export, errService]
  · simp [creer_dossier, errService]

/-- Witness for C8 at concrete arguments. -/
theorem operations_echec_distant_witness :
    fsExists [("rapport.txt", [])] "rapport.txt" = true ∧
    ((lister_fichiers (errService "panne") none none).1 = [] ∧
     (trouver_dossier_par_nom (errService "panne") "Projets").1 = none ∧
     telecharger_fichier (errService "panne") [("rapport.txt", [])] "X1" none none =
       (false, [("rapport.txt", [])], [RemoteCall.getCall "X1"]) ∧
     (telecharger_fichier (mixedFailService sampleDoc "panne") [("rapport.txt", [])] "X1"
         none none).1 = false ∧
     (uploader_fichier (errService "panne") [("rapport.txt", [])] "rapport.txt"
         none none).1 = none ∧
     (uploader_fichier (errService "panne") [("rapport.txt", [])] "rapport.txt"
         none (some "Projets")).1 = none ∧
     (obtenir_formats_export (errService "panne") "X1").1 = [] ∧
     (creer_dossier (errService "panne") "Projets" none).1 = none) :=
  ⟨rfl,
   operations_echec_distant "panne" [("rapport.txt", [])] "rapport.txt" "Projets" "X1"
     none none none sampleDoc rfl⟩
